import Mathlib

/-!
# rasdaemon: the tracing engine of `ras-events.c`

A shallow embedding of `ras-events.c`.  Every C function that talks to the
kernel is embedded as a pure function of

* its C arguments,
* an *environment* record that fixes what each system or library call made by
  the function returns (one field per call site), and
* the build-time constants that `ras-events.c` takes from its headers
  (`Config`),

and returns the C return value together with the list of observable effects
(`Effect`) in program order.

C strings are lists of characters (the bytes before the terminating NUL).
-/

namespace Rasdaemon

/-- A C string: the bytes before the terminating NUL. -/
abbrev CStr := List Char

/-! ## Constants -/

/-- `#define POLLING_TIME 3` -/
def POLLING_TIME : Nat := 3

/-- `#define UPTIME "uptime"` -/
def UPTIME : CStr := "uptime".toList

/-- `EIO` of `<errno.h>` (Linux). -/
def EIO : Int := 5

/-- `EINVAL` of `<errno.h>` (Linux). -/
def EINVAL : Int := 22

/-- `EEXIST` of `<errno.h>` (Linux). -/
def EEXIST : Int := 17

/-- The value of `errno` after a call has failed: POSIX error numbers are
positive, and no library function sets `errno` to zero. -/
abbrev Errno := ℕ+

/-- An `errno` value as the `int` that `return errno` returns. -/
def Errno.toInt (e : Errno) : Int := ((e : ℕ) : Int)

/-- Build-time constants that `ras-events.c` uses and that are declared in
headers outside this file (`ras-events.h`, `libtrace/event-parse.h`,
`config.h`). -/
structure Config where
  /-- `MAX_PATH` of `ras-events.h`. -/
  MAX_PATH : Nat
  /-- `TOOL_NAME` of `ras-logger.h`. -/
  TOOL_NAME : CStr
  /-- `PEVENT_ERRNO__MEM_ALLOC_FAILED` of `libtrace/event-parse.h`. -/
  PEVENT_ERRNO__MEM_ALLOC_FAILED : Int
  /-- `#ifdef HAVE_AER` -/
  HAVE_AER : Bool
  /-- `#ifdef HAVE_MCE` -/
  HAVE_MCE : Bool

/-- The values of the constants in the upstream headers. -/
def upstreamConfig : Config where
  MAX_PATH := 1024
  TOOL_NAME := "rasdaemon".toList
  PEVENT_ERRNO__MEM_ALLOC_FAILED := -99999
  HAVE_AER := true
  HAVE_MCE := true

/-! ## Observable effects -/

/-- The `flags` argument of the `open` calls of this file. -/
inductive OpenFlags where
  | O_RDONLY
  | O_WRONLY
  | O_RDWR_APPEND
  deriving DecidableEq, Repr

/-- The event handlers bound by `handle_ras_events`. -/
inductive Handler where
  | ras_mc_event_handler
  | ras_aer_event_handler
  | ras_mce_event_handler
  deriving DecidableEq, Repr

/-- The record that `parse_ras_data` hands to `pevent_print_event`. -/
structure PeventRecord where
  ts : Nat
  size : Int
  data : Nat
  offset : Int
  missed_events : Int
  record_size : Int
  deriving DecidableEq, Repr

/-- One observable action of the program. -/
inductive Effect where
  /-- `open(path, flags)` returning `fd`. -/
  | sys_open (path : CStr) (flags : OpenFlags) (fd : Int)
  /-- `fopen(path, "r")`; `ok` is false when it returned NULL. -/
  | sys_fopen (path : CStr) (ok : Bool)
  /-- `opendir(path)`; `ok` is false when it returned NULL. -/
  | sys_opendir (path : CStr) (ok : Bool)
  /-- `mkdir(path, S_IRWXU)` returning `rc`. -/
  | sys_mkdir (path : CStr) (rc : Int)
  /-- `read(fd, buf, count)` returning `rc`. -/
  | sys_read (fd : Int) (rc : Int)
  /-- `write(fd, bytes, strlen(bytes))` returning `rc`. -/
  | sys_write (fd : Int) (bytes : CStr) (rc : Int)
  /-- `close(fd)`, `fclose(fp)` or `closedir(dir)`. -/
  | sys_close (fd : Int)
  /-- `sleep(seconds)`. -/
  | sys_sleep (seconds : Nat)
  /-- `log(where, level, fmt, ...)`, recorded by its format string. -/
  | log (fmt : String)
  /-- `pevent_parse_header_page` returning `rc`. -/
  | pevent_parse_header_page (rc : Int)
  /-- `pevent_register_event_handler(pevent, -1, group, event, func, ras)`. -/
  | pevent_register_event_handler (group event : CStr) (func : Handler) (rc : Int)
  /-- `pevent_parse_event(pevent, page, size, group)`. -/
  | pevent_parse_event (group : CStr) (size : Int) (rc : Int)
  /-- `register_mce_handler(ras)`. -/
  | register_mce_handler (rc : Int)
  /-- `kbuffer_load_subbuffer(kbuf, page)`. -/
  | kbuffer_load_subbuffer
  /-- `kbuffer_next_event(kbuf, NULL)`. -/
  | kbuffer_next_event
  /-- The body of `parse_ras_data`: the record printed for CPU `cpu`. -/
  | parse_ras_data (cpu : Int) (record : PeventRecord)
  /-- `pthread_create(&data[i].thread, ...)` returning `rc`. -/
  | pthread_create (i : Int) (rc : Int)
  /-- `pthread_cancel(data[i].thread)`. -/
  | pthread_cancel (i : Int)
  /-- `pthread_join(data[i].thread, NULL)`. -/
  | pthread_join (i : Int)
  deriving DecidableEq, Repr

/-! ## C library helpers -/

/-- `snprintf(buf, size, ...)`: of the formatted text `s`, at most `size - 1`
bytes are stored (followed by the NUL). -/
def snprintf (size : Nat) (s : CStr) : CStr := s.take (size - 1)

/-- `strstr(hay, needle) != NULL`. -/
def strstr (hay needle : CStr) : Bool :=
  hay.tails.any (fun t => needle.isPrefixOf t)

/-- `struct ras_events` (declared in `ras-events.h`). -/
structure ras_events where
  debugfs : CStr
  tracing : CStr
  page_size : Int
  use_uptime : Bool
  record_events : Bool
  uptime_diff : Int
  deriving DecidableEq, Repr

/-- The structure as `calloc(1, sizeof(*ras))` returns it. -/
def ras_events.calloc : ras_events where
  debugfs := []
  tracing := []
  page_size := 0
  use_uptime := false
  record_events := false
  uptime_diff := 0

/-- The path that `open_trace(ras, name, flags)` opens:
`strcpy(fname, ras->tracing); strcat(fname, "/"); strcat(fname, name)`. -/
def open_trace_path (ras : ras_events) (name : CStr) : CStr :=
  ras.tracing ++ "/".toList ++ name

/-! ## Tracing enable/disable code -/

/-- What the system calls made by `__toggle_ras_mc_event` return. -/
structure ToggleEnv where
  /-- `open_trace(ras, "set_event", O_RDWR | O_APPEND)` -/
  open_fd : Int
  /-- `errno` when `return errno` is reached after the failed `open` -/
  open_errno : Errno
  /-- `write(fd, fname, strlen(fname))` -/
  write_rc : Int
  deriving DecidableEq, Repr

/-- `__toggle_ras_mc_event(ras, group, event, enable)` -/
def __toggle_ras_mc_event (cfg : Config) (env : ToggleEnv) (ras : ras_events)
    (group event : CStr) (enable : Int) : List Effect × Int :=
  let fname := snprintf (cfg.MAX_PATH + 1)
    ((if enable ≠ 0 then [] else "!".toList) ++ group ++ ":".toList ++ event ++ "\n".toList)
  let fd := env.open_fd
  let e_open := Effect.sys_open (open_trace_path ras "set_event".toList) .O_RDWR_APPEND fd
  if fd < 0 then
    ([e_open, .log "Can't open set_event\n"], env.open_errno.toInt)
  else
    let rc := env.write_rc
    let e_write := Effect.sys_write fd fname rc
    if rc < 0 then
      ([e_open, e_write, .log "Can't write to set_event\n", .sys_close fd], rc)
    else if rc = 0 then
      ([e_open, e_write, .sys_close fd, .log "Nothing was written on set_event\n"], EIO)
    else
      ([e_open, e_write, .sys_close fd, .log "%s:%s event %s\n"], 0)

/-- The `write` calls among a list of effects, as (fd, bytes) pairs. -/
def writes : List Effect → List (Int × CStr)
  | [] => []
  | .sys_write fd bytes _ :: t => (fd, bytes) :: writes t
  | _ :: t => writes t

/-- The line that enabling or disabling `group:event` is to write. -/
def set_event_line (group event : CStr) (enable : Int) : CStr :=
  if enable ≠ 0 then group ++ ":".toList ++ event ++ "\n".toList
  else "!".toList ++ group ++ ":".toList ++ event ++ "\n".toList

/-! ## Locating the tracing directory -/

/-- The tokens that successive `strtok(line, " \t")`, `strtok(NULL, " \t")`
calls return for `line`. -/
def strtok_fields (line : CStr) : List CStr :=
  (line.splitOnP (fun c => c = ' ' || c = '\t')).filter (fun t => !t.isEmpty)

/-- The `do ... while (1)` loop of `get_debugfs_dir` over the lines that
`fgets` returns: the mount point of the first line of type "debugfs", or
`none` when the loop is left by `break`. -/
def get_debugfs_dir_scan : List CStr → Option CStr
  | [] => none
  | line :: rest =>
    match strtok_fields line with
    | _p :: dir :: type :: _ =>
      if type = "debugfs".toList then some dir else get_debugfs_dir_scan rest
    | _ => none

/-- `get_debugfs_dir(tracing_dir, len)`: `mounts` is `none` when
`fopen("/proc/mounts")` fails (`errno` being `fopen_errno`), else the lines of
the file; `ENOENT` is 2.  Returns the new contents of `tracing_dir`. -/
def get_debugfs_dir (mounts : Option (List CStr)) (fopen_errno : Errno)
    (tracing_dir : CStr) (len : Nat) : List Effect × Int × CStr :=
  match mounts with
  | none =>
    ([.sys_fopen "/proc/mounts".toList false, .log "Can't open /proc/mounts"],
      fopen_errno.toInt, tracing_dir)
  | some lines =>
    match get_debugfs_dir_scan lines with
    | some dir => ([.sys_fopen "/proc/mounts".toList true], 0, dir.take (len - 1))
    | none =>
      ([.sys_fopen "/proc/mounts".toList true, .log "Can't find debugfs\n"], 2, tracing_dir)

/-- What the calls made by `get_tracing_dir` return. -/
structure TracingDirEnv where
  /-- `fopen("/proc/mounts", "r")`: `none` for NULL, else the lines read -/
  mounts : Option (List CStr)
  /-- `errno` after a failed `fopen` -/
  fopen_errno : Errno
  /-- `opendir(debugfs/tracing)`: `none` for NULL, else the entry names -/
  tracing_entries : Option (List CStr)
  /-- `mkdir(ras->tracing, S_IRWXU)` -/
  mkdir_rc : Int
  /-- `errno` after `mkdir` -/
  mkdir_errno : Int

/-- `get_tracing_dir(ras)`; returns the status and the updated `ras`. -/
def get_tracing_dir (cfg : Config) (env : TracingDirEnv) (ras : ras_events) :
    List Effect × Int × ras_events :=
  let (effs0, _, debugfs) :=
    get_debugfs_dir env.mounts env.fopen_errno ras.debugfs (cfg.MAX_PATH + 1)
  let ras := { ras with debugfs := debugfs }
  let fname := ras.debugfs ++ "/tracing".toList
  match env.tracing_entries with
  | none => (effs0 ++ [.sys_opendir fname false], -1, ras)
  | some entries =>
    let has_instances := entries.any (fun d_name => strstr d_name "instances".toList)
    let ras := { ras with tracing := ras.debugfs ++ "/tracing".toList }
    if has_instances then
      let ras := { ras with tracing := ras.tracing ++ "/instances/".toList ++ cfg.TOOL_NAME }
      let rc := env.mkdir_rc
      if rc < 0 ∧ env.mkdir_errno ≠ EEXIST then
        (effs0 ++ [.sys_opendir fname true, .sys_mkdir ras.tracing rc,
          .log "Unable to create TOOL_NAME instance at %s\n"], -1, ras)
      else
        (effs0 ++ [.sys_opendir fname true, .sys_mkdir ras.tracing rc], 0, ras)
    else
      (effs0 ++ [.sys_opendir fname true], 0, ras)

/-! ## Tracing read code -/

/-- The fields of `struct pevent` that `ras-events.c` reads. -/
structure Pevent where
  header_page_data_offset : Int
  header_page_data_size : Int
  deriving DecidableEq, Repr

/-- What the calls made by `get_pagesize` return. -/
structure PagesizeEnv where
  /-- `open_trace(ras, "events/header_page", O_RDONLY)` -/
  open_fd : Int
  /-- `read(fd, buf, page_size)` -/
  read_len : Int
  /-- `pevent_parse_header_page(pevent, buf, len, sizeof(long))` -/
  parse_rc : Int
  /-- the `pevent` structure as `pevent_parse_header_page` leaves it -/
  parsed : Pevent
  deriving DecidableEq, Repr

/-- `get_pagesize(ras, pevent)`; returns `page_size` and the `pevent` structure
as the call leaves it.  `int` addition is taken exact (overflow is undefined
in C). -/
def get_pagesize (env : PagesizeEnv) (ras : ras_events) (pevent : Pevent) :
    List Effect × Int × Pevent :=
  let page_size : Int := 4096
  let fd := env.open_fd
  let e_open := Effect.sys_open (open_trace_path ras "events/header_page".toList) .O_RDONLY fd
  if fd < 0 then
    ([e_open], page_size, pevent)
  else
    let len := env.read_len
    if len ≤ 0 then
      ([e_open, .sys_read fd len, .sys_close fd], page_size, pevent)
    else
      let pevent := env.parsed
      if env.parse_rc ≠ 0 then
        ([e_open, .sys_read fd len, .pevent_parse_header_page env.parse_rc, .sys_close fd],
          page_size, pevent)
      else
        let page_size := pevent.header_page_data_offset + pevent.header_page_data_size
        ([e_open, .sys_read fd len, .pevent_parse_header_page env.parse_rc, .sys_close fd],
          page_size, pevent)

/-- One event of a ring-buffer sub-buffer, as the kbuffer accessors report it. -/
structure KEvent where
  /-- the payload pointer that `kbuffer_read_event` returns (not NULL) -/
  data : Nat
  /-- the time stamp that `kbuffer_read_event` stores -/
  ts : Nat
  /-- `kbuffer_event_size` -/
  size : Int
  /-- `kbuffer_curr_offset` -/
  offset : Int
  /-- `kbuffer_missed_events` -/
  missed_events : Int
  /-- `kbuffer_curr_size` -/
  record_size : Int
  deriving DecidableEq, Repr

/-- Modelled from the spec: `struct kbuffer` of `libtrace/kbuffer.c`, which is
not part of `ras-events.c`.  The decode-cursor state over the currently loaded
sub-buffer: the events of the sub-buffer in position order and the index of
the event under the cursor. -/
structure Kbuffer where
  subbuffer : List KEvent
  curr : Nat
  deriving DecidableEq, Repr

/-- Modelled from the spec: `kbuffer_load_subbuffer` of `libtrace/kbuffer.c`:
treats the page as one sub-buffer and puts the cursor on its first event. -/
def kbuffer_load_subbuffer (_kbuf : Kbuffer) (page : List KEvent) : Kbuffer :=
  { subbuffer := page, curr := 0 }

/-- Modelled from the spec: `kbuffer_read_event` of `libtrace/kbuffer.c`: the
payload pointer and time stamp of the event under the cursor, NULL (`none`)
when the sub-buffer is exhausted. -/
def kbuffer_read_event (kbuf : Kbuffer) : Option (Nat × Nat) :=
  (kbuf.subbuffer.get? kbuf.curr).map (fun e => (e.data, e.ts))

/-- Modelled from the spec: `kbuffer_next_event` of `libtrace/kbuffer.c`:
advances the cursor to the next event. -/
def kbuffer_next_event (kbuf : Kbuffer) : Kbuffer :=
  { kbuf with curr := kbuf.curr + 1 }

/-- Modelled from the spec: `kbuffer_event_size`, `kbuffer_curr_offset`,
`kbuffer_missed_events` and `kbuffer_curr_size` of `libtrace/kbuffer.c` read
the event under the cursor (0 when there is none). -/
def kbuffer_curr (kbuf : Kbuffer) (field : KEvent → Int) : Int :=
  ((kbuf.subbuffer.get? kbuf.curr).map field).getD 0

/-- `parse_ras_data(pdata, kbuf, data, time_stamp)`: builds the record and
prints it. -/
def parse_ras_data (cpu : Int) (kbuf : Kbuffer) (data : Nat) (time_stamp : Nat) : Effect :=
  .parse_ras_data cpu
    { ts := time_stamp
      size := kbuffer_curr kbuf KEvent.size
      data := data
      offset := kbuffer_curr kbuf KEvent.offset
      missed_events := kbuffer_curr kbuf KEvent.missed_events
      record_size := kbuffer_curr kbuf KEvent.record_size }

/-- The loop `while ((data = kbuffer_read_event(kbuf, &time_stamp)))` of
`read_ras_event`; `none` when `fuel` iterations do not reach its exit. -/
def decode_loop (cpu : Int) : Nat → Kbuffer → Option (List Effect × Kbuffer)
  | 0, _ => none
  | fuel + 1, kbuf =>
    match kbuffer_read_event kbuf with
    | none => some ([], kbuf)
    | some (data, time_stamp) =>
      match decode_loop cpu fuel (kbuffer_next_event kbuf) with
      | none => none
      | some (effs, kbuf1) =>
        some (parse_ras_data cpu kbuf data time_stamp :: .kbuffer_next_event :: effs, kbuf1)

/-- What one `read(fd, page, pdata->ras->page_size)` of `read_ras_event` does. -/
structure ReadOutcome where
  /-- the value that `read` returns -/
  rc : Int
  /-- the events that the page buffer holds after the call -/
  page : List KEvent
  deriving DecidableEq, Repr

/-- The state that `read_ras_event` keeps between iterations. -/
structure ReaderState where
  /-- `static int warn_sleep` -/
  warn_sleep : Bool
  kbuf : Kbuffer
  deriving DecidableEq, Repr

/-- `read_ras_event(fd, pdata, kbuf, page)` run over the successive outcomes
of its `read` calls.  The result holds the effects, the final state, and
`some r` when the function returned `r` (`none` when it is still in its
`do ... while (1)` loop after the last outcome).  `fuel` bounds each run of
the inner decode loop.  `size` is declared `unsigned`. -/
def read_ras_event (fd : Int) (cpu : Int) (fuel : Nat) :
    ReaderState → List ReadOutcome → Option (List Effect × ReaderState × Option Int)
  | st, [] => some ([], st, none)
  | st, o :: os =>
    let size : Nat := (o.rc % 2 ^ 32).toNat
    let e_read := Effect.sys_read fd o.rc
    if size < 0 then
      some ([e_read, .log "read\n"], st, some (-1))
    else if size > 0 then
      let kbuf := kbuffer_load_subbuffer st.kbuf o.page
      match decode_loop cpu fuel kbuf with
      | none => none
      | some (effs, kbuf1) =>
        match read_ras_event fd cpu fuel { st with kbuf := kbuf1 } os with
        | none => none
        | some (rest, st1, r) =>
          some (e_read :: .kbuffer_load_subbuffer :: effs ++ rest, st1, r)
    else
      let warn := if !st.warn_sleep then [Effect.log "Old kernel: need to sleep\n"] else []
      let st := if !st.warn_sleep then { st with warn_sleep := true } else st
      match read_ras_event fd cpu fuel st os with
      | none => none
      | some (rest, st1, r) =>
        some (e_read :: warn ++ .sys_sleep POLLING_TIME :: rest, st1, r)

/-- What the calls made by `get_num_cpus` return. -/
structure NumCpusEnv where
  /-- `opendir(debugfs/tracing/per_cpu/)`: `none` for NULL, else the entry names -/
  per_cpu_entries : Option (List CStr)

/-- `get_num_cpus(ras)` -/
def get_num_cpus (env : NumCpusEnv) (ras : ras_events) : List Effect × Int :=
  let fname := ras.debugfs ++ "/tracing/per_cpu/".toList
  match env.per_cpu_entries with
  | none => ([.sys_opendir fname false], -1)
  | some entries =>
    ([.sys_opendir fname true],
      ((entries.filter (fun d_name => strstr d_name "cpu".toList)).length : Int))

/-! ## Clock selection -/

/-- `isspace` in the C locale. -/
def isspace (c : Char) : Bool :=
  c = ' ' || c = '\t' || c = '\n' || c = '\x0b' || c = '\x0c' || c = '\r'

/-- The value of a run of decimal digits, most significant first. -/
def digits_value (ds : CStr) : Nat :=
  ds.foldl (fun acc c => 10 * acc + (c.toNat - '0'.toNat)) 0

/-- The optional sign of a `%zu` conversion: whether it is `-`, and the text
after it. -/
def scan_sign (s : CStr) : Bool × CStr :=
  match s with
  | '-' :: t => (true, t)
  | '+' :: t => (false, t)
  | _ => (false, s)

/-- The first conversion of `fscanf(fp, "%zu.%u ", &uptime, &j1)` on the text
`s`: white space is skipped, then an optionally signed run of decimal digits
is converted as `strtoul` does (64-bit `size_t`).  `none` when the conversion
fails, in which case nothing is stored.  The later directives only store into
`j1`, which is never read. -/
def scan_zu (s : CStr) : Option Nat :=
  let s := s.dropWhile isspace
  let (neg, s) := scan_sign s
  let ds := s.takeWhile Char.isDigit
  if ds = [] then none
  else
    let n := digits_value ds
    if n ≥ 2 ^ 64 then some (2 ^ 64 - 1)
    else if neg then some ((2 ^ 64 - n) % 2 ^ 64)
    else some n

/-- A `size_t` value stored into a `time_t` (signed, 64 bits). -/
def to_time_t (n : Nat) : Int :=
  if n < 2 ^ 63 then (n : Int) else (n : Int) - 2 ^ 64

/-- `write(fd, ...)` on a descriptor that is not open fails with -1. -/
def write_result (fd : Int) (rc : Int) : Int :=
  if fd < 0 then -1 else rc

/-- What the calls made by `select_tracing_timestamp` return. -/
structure ClockEnv where
  /-- `open_trace(ras, "trace_clock", O_RDONLY)` -/
  open_fd : Int
  /-- `read(fd, buf, sizeof(buf))` (the code does not look at it) -/
  read_rc : Int
  /-- the text of `buf` after the `read` call, as `strstr` scans it -/
  buf : CStr
  /-- `open_trace(ras, "trace_clock", O_WRONLY)` -/
  sel_fd : Int
  /-- `write(fd, UPTIME, sizeof(UPTIME))` when `fd` is an open descriptor -/
  write_rc : Int
  /-- `fopen("/proc/uptime", "r")`: `none` for NULL, else the text of the file -/
  uptime_file : Option CStr
  /-- the indeterminate value of the local `uptime` before `fscanf` -/
  uptime_init : Int
  /-- `time(NULL)` -/
  now : Int
  deriving DecidableEq, Repr

/-- `select_tracing_timestamp(ras)`; returns the status and the updated `ras`.
`time_t` subtraction is taken exact (overflow is undefined in C). -/
def select_tracing_timestamp (env : ClockEnv) (ras : ras_events) :
    List Effect × Int × ras_events :=
  let path := open_trace_path ras "trace_clock".toList
  let fd := env.open_fd
  let e_open := Effect.sys_open path .O_RDONLY fd
  if fd < 0 then
    ([e_open, .log "Can't open trace_clock\n"], -1, ras)
  else
    let effs1 := [e_open, .sys_read fd env.read_rc, .sys_close fd]
    if !strstr env.buf UPTIME then
      (effs1 ++ [.log "Kernel doesn't support uptime clock\n"], 0, ras)
    else
      let fd := env.sel_fd
      let e_open2 := Effect.sys_open path .O_WRONLY fd
      if fd = 0 then
        (effs1 ++ [e_open2, .log "Kernel didn't allow writing to trace_clock\n"], 0, ras)
      else
        let rc := write_result fd env.write_rc
        let effs2 := effs1 ++ [e_open2, .sys_write fd (UPTIME ++ ['\x00']) rc, .sys_close fd]
        if rc < 0 then
          (effs2 ++ [.log "Kernel didn't allow selecting uptime on trace_clock\n"], 0, ras)
        else
          match env.uptime_file with
          | none =>
            (effs2 ++ [.sys_fopen "/proc/uptime".toList false,
              .log "Couldn't read from /proc/uptime\n"], 0, ras)
          | some text =>
            let uptime : Int :=
              match scan_zu text with
              | some v => to_time_t v
              | none => env.uptime_init
            let now := env.now
            (effs2 ++ [.sys_fopen "/proc/uptime".toList true],
              0, { ras with use_uptime := true, uptime_diff := now - uptime })

/-! ## Event registration -/

/-- What the calls made by `add_event_handler` return. -/
structure AddEnv where
  /-- `open_trace(ras, fname, O_RDONLY)` -/
  open_fd : Int
  /-- `errno` when `return errno` is reached after the failed `open` -/
  open_errno : Errno
  /-- `malloc(page_size)` returned a non-NULL pointer -/
  malloc_ok : Bool
  /-- `errno` after the failed `malloc` -/
  malloc_errno : Errno
  /-- `read(fd, page, page_size)` -/
  read_size : Int
  /-- `pevent_register_event_handler(pevent, -1, group, event, func, ras)` -/
  register_rc : Int
  /-- `pevent_parse_event(pevent, page, size, group)` -/
  parse_rc : Int
  /-- the calls of `__toggle_ras_mc_event(ras, group, event, 1)` -/
  toggle : ToggleEnv
  deriving DecidableEq, Repr

/-- `add_event_handler(ras, pevent, page_size, group, event, func)` -/
def add_event_handler (cfg : Config) (env : AddEnv) (ras : ras_events)
    (group event : CStr) (func : Handler) : List Effect × Int :=
  let fname := snprintf (cfg.MAX_PATH + 1)
    ("events/".toList ++ group ++ "/".toList ++ event ++ "/format".toList)
  let fd := env.open_fd
  let e_open := Effect.sys_open (open_trace_path ras fname) .O_RDONLY fd
  if fd < 0 then
    ([e_open, .log "Can't get %s:%s format. Are you sure that there's an EDAC driver loaded?\n"],
      env.open_errno.toInt)
  else if !env.malloc_ok then
    ([e_open, .log "Can't allocate page to read %s:%s format\n", .sys_close fd],
      env.malloc_errno.toInt)
  else
    let size := env.read_size
    let effs1 := [e_open, .sys_read fd size, .sys_close fd]
    if size < 0 then
      (effs1 ++ [.log "Can't get arch page size\n"], size)
    else
      let rc := env.register_rc
      let effs2 := effs1 ++ [.pevent_register_event_handler group event func rc]
      if rc = cfg.PEVENT_ERRNO__MEM_ALLOC_FAILED then
        (effs2 ++ [.log "Can't register event handler for %s:%s\n"], EINVAL)
      else
        let rc := env.parse_rc
        let effs3 := effs2 ++ [.pevent_parse_event group size rc]
        if rc ≠ 0 then
          (effs3 ++ [.log "Can't parse event %s:%s\n"], EINVAL)
        else
          let (effs4, rc) := __toggle_ras_mc_event cfg env.toggle ras group event 1
          if rc < 0 then
            (effs3 ++ effs4 ++ [.log "Can't enable %s:%s tracing\n"], EINVAL)
          else
            (effs3 ++ effs4 ++ [.log "Enabled event %s:%s\n"], 0)

/-! ## The supervisor -/

/-- The loop `while (--i) pthread_cancel(data[i].thread);` entered with
index `i`; `none` when `fuel` iterations do not reach its exit. -/
def cancel_loop : Nat → Int → Option (List Effect)
  | 0, _ => none
  | fuel + 1, i =>
    let i := i - 1
    if i ≠ 0 then
      match cancel_loop fuel i with
      | none => none
      | some effs => some (.pthread_cancel i :: effs)
    else some []

/-- The loop `for (i = 0; i < cpus; i++)` of `handle_ras_events` that creates
the threads, with `remaining` iterations to go from index `i`.  The result
holds the effects and `some rc` when the loop jumped to `err` with `rc`
(`none` when it ran to its end); it is `none` when the cancellation loop does
not finish within `fuel`. -/
def spawn_loop (create_rc : Nat → Int) (fuel : Nat) :
    Nat → Nat → Option (List Effect × Option Int)
  | 0, _ => some ([], none)
  | remaining + 1, i =>
    let rc := create_rc i
    if rc ≠ 0 then
      match cancel_loop fuel i with
      | none => none
      | some effs =>
        some (.pthread_create i rc
          :: .log "Failed to create thread for cpu %d. Aborting.\n" :: effs, some rc)
    else
      match spawn_loop create_rc fuel remaining (i + 1) with
      | none => none
      | some (effs, r) => some (.pthread_create i rc :: effs, r)

/-- What the calls made by `handle_ras_events` return. -/
structure HandleEnv where
  /-- `calloc(1, sizeof(*ras))` returned a non-NULL pointer -/
  calloc_ras_ok : Bool
  /-- `errno` after the failed `calloc` -/
  calloc_ras_errno : Errno
  tracing : TracingDirEnv
  clock : ClockEnv
  /-- `pevent_alloc()` returned a non-NULL pointer, and the structure it returned -/
  pevent_alloc : Option Pevent
  /-- `errno` after the failed `pevent_alloc` -/
  pevent_alloc_errno : Errno
  pagesize : PagesizeEnv
  /-- the calls of `add_event_handler` for `ras:mc_event` -/
  mc : AddEnv
  /-- the calls of `add_event_handler` for `ras:aer_event` -/
  aer : AddEnv
  /-- `register_mce_handler(ras)` -/
  register_mce_rc : Int
  /-- `ras->mce_priv` is not NULL after `register_mce_handler` -/
  mce_priv : Bool
  /-- the calls of `add_event_handler` for `mce:mce_record` -/
  mce : AddEnv
  num_cpus : NumCpusEnv
  /-- `calloc(sizeof(*data), cpus)` returned a non-NULL pointer, when the
  product does not overflow -/
  calloc_data_ok : Bool
  /-- `pthread_create(&data[i].thread, ...)` for each index `i` -/
  pthread_create_rc : Nat → Int

/-- The effects that create, cancel or join threads. -/
def thread_effects : List Effect → List Effect
  | [] => []
  | .pthread_create i rc :: t => .pthread_create i rc :: thread_effects t
  | .pthread_cancel i :: t => .pthread_cancel i :: thread_effects t
  | .pthread_join i :: t => .pthread_join i :: thread_effects t
  | _ :: t => thread_effects t

/-- The part of `handle_ras_events` from `cpus = get_num_cpus(ras)` on, entered
with the current value of `rc`. -/
def handle_ras_events_threads (env : HandleEnv) (fuel : Nat) (ras : ras_events) (rc : Int) :
    Option (List Effect × Int) :=
  let (effs_cpus, cpus) := get_num_cpus env.num_cpus ras
  -- `calloc(sizeof(*data), cpus)`: a negative `cpus` converts to a `size_t`
  -- whose product with the element size overflows, and `calloc` returns NULL
  let data_ok := if cpus < 0 then false else env.calloc_data_ok
  if !data_ok then
    some (effs_cpus, rc)
  else
    match spawn_loop env.pthread_create_rc fuel cpus.toNat 0 with
    | none => none
    | some (effs_spawn, some rc) =>
      some (effs_cpus ++ .log "Opening one thread per cpu (%d threads)\n" :: effs_spawn, rc)
    | some (effs_spawn, none) =>
      -- `rc` is that of the last `pthread_create`, when there was one
      let rc := if cpus.toNat = 0 then rc else 0
      some (effs_cpus ++ .log "Opening one thread per cpu (%d threads)\n" :: effs_spawn
        ++ (List.range cpus.toNat).map (fun i => Effect.pthread_join i)
        ++ [.log "Huh! something got wrong. Aborting.\n"], rc)

/-- The part of `handle_ras_events` under `#ifdef HAVE_MCE`, and what follows. -/
def handle_ras_events_mce (cfg : Config) (env : HandleEnv) (fuel : Nat) (ras : ras_events)
    (rc : Int) : Option (List Effect × Int) :=
  if cfg.HAVE_MCE then
    let rc := env.register_mce_rc
    if rc ≠ 0 then
      some ([.register_mce_handler rc, .log "Can't register mce handler\n"], rc)
    else if env.mce_priv then
      let (effs, rc) := add_event_handler cfg env.mce ras "mce".toList "mce_record".toList
        .ras_mce_event_handler
      if rc ≠ 0 then some (.register_mce_handler 0 :: effs, rc)
      else
        (handle_ras_events_threads env fuel ras rc).map
          (fun r => (.register_mce_handler 0 :: effs ++ r.1, r.2))
    else
      (handle_ras_events_threads env fuel ras rc).map
        (fun r => (.register_mce_handler 0 :: r.1, r.2))
  else
    handle_ras_events_threads env fuel ras rc

/-- `handle_ras_events(record_events)`: the effects and the status returned;
`none` when the thread-cancellation loop does not finish within `fuel`
iterations. -/
def handle_ras_events (cfg : Config) (env : HandleEnv) (fuel : Nat) (record_events : Int) :
    Option (List Effect × Int) :=
  if !env.calloc_ras_ok then
    some ([.log "Can't allocate memory for ras struct\n"], env.calloc_ras_errno.toInt)
  else
    let ras := ras_events.calloc
    let (effs_dir, rc, ras) := get_tracing_dir cfg env.tracing ras
    if rc < 0 then
      some (effs_dir ++ [.log "Can't locate a mounted debugfs\n"], rc)
    else
      let (effs_clock, rc, ras) := select_tracing_timestamp env.clock ras
      if rc < 0 then
        some (effs_dir ++ effs_clock ++ [.log "Can't select a timestamp for tracing\n"], rc)
      else
        match env.pevent_alloc with
        | none =>
          some (effs_dir ++ effs_clock ++ [.log "Can't allocate pevent\n"],
            env.pevent_alloc_errno.toInt)
        | some pevent =>
          let (effs_page, page_size, _) := get_pagesize env.pagesize ras pevent
          -- `record_events` is a one-bit bit-field
          let ras := { ras with page_size := page_size, record_events := record_events % 2 ≠ 0 }
          let effs0 := effs_dir ++ effs_clock ++ effs_page
          let (effs_mc, rc) := add_event_handler cfg env.mc ras "ras".toList "mc_event".toList
            .ras_mc_event_handler
          if rc ≠ 0 then some (effs0 ++ effs_mc, rc)
          else if cfg.HAVE_AER then
            let (effs_aer, rc) := add_event_handler cfg env.aer ras "ras".toList
              "aer_event".toList .ras_aer_event_handler
            if rc ≠ 0 then some (effs0 ++ effs_mc ++ effs_aer, rc)
            else
              (handle_ras_events_mce cfg env fuel ras rc).map
                (fun r => (effs0 ++ effs_mc ++ effs_aer ++ r.1, r.2))
          else
            (handle_ras_events_mce cfg env fuel ras rc).map
              (fun r => (effs0 ++ effs_mc ++ r.1, r.2))

/-! ## Specification-side definitions -/

/-- The record that `parse_ras_data` is to print for the event `e`. -/
def record_of (e : KEvent) : PeventRecord where
  ts := e.ts
  size := e.size
  data := e.data
  offset := e.offset
  missed_events := e.missed_events
  record_size := e.record_size

/-- The effects of decoding a sub-buffer that holds the events `page`: for
each event in position order, the `parse_ras_data` call for it and then the
advance of the cursor. -/
def decode_trace (cpu : Int) : List KEvent → List Effect
  | [] => []
  | e :: t => .parse_ras_data cpu (record_of e) :: .kbuffer_next_event :: decode_trace cpu t

/-- The records of the `parse_ras_data` calls among a list of effects. -/
def dispatched : List Effect → List PeventRecord
  | [] => []
  | .parse_ras_data _ record :: t => record :: dispatched t
  | _ :: t => dispatched t

/-- An event with time stamp `ts` at offset `offset` of a sub-buffer. -/
def sample_event (ts : Nat) (offset : Int) : KEvent where
  data := 4096 + offset.toNat
  ts := ts
  size := 24
  offset := offset
  missed_events := 0
  record_size := 32

/-- The state of a reader thread before its first `read`. -/
def initial_reader_state : ReaderState where
  warn_sleep := false
  kbuf := { subbuffer := [], curr := 0 }

/-- A run of `select_tracing_timestamp` on a kernel with the uptime clock. -/
def sample_clock_env : ClockEnv where
  open_fd := 4
  read_rc := 28
  buf := "local global counter uptime\n".toList
  sel_fd := 4
  write_rc := 7
  uptime_file := some "12345.67 999.99".toList
  uptime_init := 0
  now := 1700000000

/-- A run of `add_event_handler` in which every call succeeds. -/
def sample_add_env : AddEnv where
  open_fd := 5
  open_errno := 2
  malloc_ok := true
  malloc_errno := 12
  read_size := 512
  register_rc := -1
  parse_rc := 0
  toggle := { open_fd := 6, open_errno := 2, write_rc := 13 }

/-- A run of `handle_ras_events` in which every setup call succeeds, on a
machine whose `per_cpu` directory has the entries `per_cpu` and on which
`pthread_create` returns `create_rc i` for index `i`. -/
def sample_handle_env (per_cpu : List CStr) (create_rc : Nat → Int) : HandleEnv where
  calloc_ras_ok := true
  calloc_ras_errno := 12
  tracing :=
    { mounts := some ["debugfs /sys/kernel/debug debugfs rw,relatime 0 0\n".toList]
      fopen_errno := 2
      tracing_entries := some ["events".toList, "instances".toList, "per_cpu".toList]
      mkdir_rc := 0
      mkdir_errno := 0 }
  clock := sample_clock_env
  pevent_alloc := some { header_page_data_offset := 0, header_page_data_size := 0 }
  pevent_alloc_errno := 12
  pagesize :=
    { open_fd := 4, read_len := 205, parse_rc := 0
      parsed := { header_page_data_offset := 16, header_page_data_size := 4080 } }
  mc := sample_add_env
  aer := sample_add_env
  register_mce_rc := 0
  mce_priv := true
  mce := sample_add_env
  num_cpus := { per_cpu_entries := some per_cpu }
  calloc_data_ok := true
  pthread_create_rc := create_rc

/-- The `per_cpu` directory of a machine with four CPUs. -/
def four_cpus : List CStr :=
  [".".toList, "..".toList, "cpu0".toList, "cpu1".toList, "cpu2".toList, "cpu3".toList]

/-! ## Theorems -/

/-! ### Enabling and disabling an event -/

theorem writes_append (a b : List Effect) : writes (a ++ b) = writes a ++ writes b := by
  induction a with
  | nil => rfl
  | cons e t ih => cases e <;> simp [writes, ih]

theorem fname_eq_take (cfg : Config) (group event : CStr) (enable : Int) :
    snprintf (cfg.MAX_PATH + 1)
      ((if enable ≠ 0 then [] else "!".toList) ++ group ++ ":".toList ++ event ++ "\n".toList)
      = (set_event_line group event enable).take cfg.MAX_PATH := by
  unfold snprintf set_event_line
  by_cases h : enable = 0 <;> simp [h]

/-- The writes of `__toggle_ras_mc_event` when `set_event` opens. -/
theorem toggle_writes (cfg : Config) (env : ToggleEnv) (ras : ras_events)
    (group event : CStr) (enable : Int) (hopen : 0 ≤ env.open_fd) :
    writes (__toggle_ras_mc_event cfg env ras group event enable).1
      = [(env.open_fd, (set_event_line group event enable).take cfg.MAX_PATH)] := by
  have hfd : ¬ env.open_fd < 0 := not_lt.mpr hopen
  unfold __toggle_ras_mc_event
  simp only [fname_eq_take, hfd, if_false]
  split_ifs <;> simp [writes]

/-- C1, as stated, fails: with `MAX_PATH = 1024`, enabling an event whose group
name has 1024 bytes writes only the first 1024 bytes of the line, not
`group ++ ":" ++ event ++ "\n"`. -/
theorem toggle_long_name_truncated :
    writes (__toggle_ras_mc_event upstreamConfig { open_fd := 3, open_errno := 2, write_rc := 1024 }
        ras_events.calloc (List.replicate 1024 'g') "mc_event".toList 1).1
      ≠ [(3, List.replicate 1024 'g' ++ ":".toList ++ "mc_event".toList ++ "\n".toList)] := by
  rw [toggle_writes _ _ _ _ _ _ (by decide)]
  intro h
  injection h with h1 _
  injection h1 with _ h2
  have h3 := congrArg List.length h2
  have h4 := List.length_take_le upstreamConfig.MAX_PATH
    (set_event_line (List.replicate 1024 'g') "mc_event".toList 1)
  rw [h3] at h4
  simp only [List.length_append, List.length_replicate] at h4
  have h5 : upstreamConfig.MAX_PATH = 1024 := rfl
  have h6 : ":".toList.length = 1 := rfl
  omega

/-- Whatever the value of `MAX_PATH`, a group name of `MAX_PATH` bytes makes the
write differ from the full line. -/
theorem toggle_truncates_for_any_max_path (cfg : Config) (env : ToggleEnv) (ras : ras_events)
    (event : CStr) (hopen : 0 ≤ env.open_fd) :
    writes (__toggle_ras_mc_event cfg env ras (List.replicate cfg.MAX_PATH 'g') event 1).1
      ≠ [(env.open_fd, set_event_line (List.replicate cfg.MAX_PATH 'g') event 1)] := by
  rw [toggle_writes _ _ _ _ _ _ hopen]
  intro h
  injection h with h1 _
  injection h1 with _ h2
  have h3 := congrArg List.length h2
  have h4 := List.length_take_le cfg.MAX_PATH
    (set_event_line (List.replicate cfg.MAX_PATH 'g') event 1)
  rw [h3] at h4
  simp only [set_event_line, List.length_append, List.length_replicate] at h4
  have h6 : ":".toList.length = 1 := rfl
  simp only [ne_eq, one_ne_zero, not_false_eq_true, if_true, List.length_append,
    List.length_replicate] at h4
  omega

/-- C1 (amended): when `set_event` opens, `__toggle_ras_mc_event` issues exactly
one write, of the first `MAX_PATH` bytes of the line `group ++ ":" ++ event ++
"\n"` (enabling) or `"!" ++ group ++ ":" ++ event ++ "\n"` (disabling); when
the line has at most `MAX_PATH` bytes these are exactly the bytes of the line. -/
theorem toggle_writes_line (cfg : Config) (env : ToggleEnv) (ras : ras_events)
    (group event : CStr) (enable : Int) (hopen : 0 ≤ env.open_fd) :
    (writes (__toggle_ras_mc_event cfg env ras group event enable).1
        = [(env.open_fd,
            ((if enable ≠ 0 then [] else ['!']) ++ group ++ [':'] ++ event ++ ['\n']).take
              cfg.MAX_PATH)])
    ∧ (((if enable ≠ 0 then [] else ['!']) ++ group ++ [':'] ++ event ++ ['\n']).length
          ≤ cfg.MAX_PATH →
        writes (__toggle_ras_mc_event cfg env ras group event enable).1
          = [(env.open_fd,
              (if enable ≠ 0 then [] else ['!']) ++ group ++ [':'] ++ event ++ ['\n'])]) := by
  have hline : set_event_line group event enable
      = (if enable ≠ 0 then [] else ['!']) ++ group ++ [':'] ++ event ++ ['\n'] := by
    unfold set_event_line
    by_cases h : enable = 0 <;> simp [h]
  rw [toggle_writes cfg env ras group event enable hopen, hline]
  refine ⟨rfl, fun hfit => ?_⟩
  rw [List.take_of_length_le hfit]

/-- Enabling `ras:mc_event` and disabling `mce:mce_record` with the upstream
`MAX_PATH`. -/
theorem toggle_writes_line_witness :
    writes (__toggle_ras_mc_event upstreamConfig { open_fd := 3, open_errno := 2, write_rc := 13 }
        ras_events.calloc "ras".toList "mc_event".toList 1).1
      = [(3, "ras:mc_event\n".toList)]
    ∧ writes (__toggle_ras_mc_event upstreamConfig
        { open_fd := 3, open_errno := 2, write_rc := 16 }
        ras_events.calloc "mce".toList "mce_record".toList 0).1
      = [(3, "!mce:mce_record\n".toList)] := by
  have h := (toggle_writes_line upstreamConfig { open_fd := 3, open_errno := 2, write_rc := 13 }
    ras_events.calloc "ras".toList "mc_event".toList 1 (by decide)).2 (by decide)
  have h0 := (toggle_writes_line upstreamConfig { open_fd := 3, open_errno := 2, write_rc := 16 }
    ras_events.calloc "mce".toList "mce_record".toList 0 (by decide)).2 (by decide)
  exact ⟨by simpa using h, by simpa using h0⟩

/-! ### Page size -/

/-- C7: `get_pagesize` returns `header_page_data_offset + header_page_data_size`
(of the `pevent` structure after the header was parsed) when
`events/header_page` opens, `read` returns a positive length and
`pevent_parse_header_page` returns 0, and returns exactly 4096 in every other
case. -/
theorem get_pagesize_spec (env : PagesizeEnv) (ras : ras_events) (pevent : Pevent) :
    (get_pagesize env ras pevent).2.1
      = if 0 ≤ env.open_fd ∧ 0 < env.read_len ∧ env.parse_rc = 0
        then env.parsed.header_page_data_offset + env.parsed.header_page_data_size
        else 4096 := by
  unfold get_pagesize
  by_cases h1 : env.open_fd < 0
  · have : ¬ 0 ≤ env.open_fd := not_le.mpr h1
    simp [h1, this]
  · have h1b : 0 ≤ env.open_fd := not_lt.mp h1
    by_cases h2 : env.read_len ≤ 0
    · have : ¬ 0 < env.read_len := not_lt.mpr h2
      simp [h1, h2, this]
    · have h2b : 0 < env.read_len := not_le.mp h2
      by_cases h3 : env.parse_rc = 0 <;> simp [h1, h2, h3, h1b, h2b]

/-! ### Registering an event -/

/-- The writes of `add_event_handler` are those of its enable call, which is
made only when the open, the allocation, the read, the registration and the
parse have all succeeded. -/
theorem add_event_handler_writes (cfg : Config) (env : AddEnv) (ras : ras_events)
    (group event : CStr) (func : Handler) :
    writes (add_event_handler cfg env ras group event func).1
      = if 0 ≤ env.open_fd ∧ env.malloc_ok = true ∧ 0 ≤ env.read_size
            ∧ env.register_rc ≠ cfg.PEVENT_ERRNO__MEM_ALLOC_FAILED ∧ env.parse_rc = 0
        then writes (__toggle_ras_mc_event cfg env.toggle ras group event 1).1
        else [] := by
  unfold add_event_handler
  by_cases h1 : env.open_fd < 0
  · have : ¬ 0 ≤ env.open_fd := not_le.mpr h1
    simp [h1, this, writes]
  · have h1b : 0 ≤ env.open_fd := not_lt.mp h1
    by_cases h2 : env.malloc_ok = true
    · by_cases h3 : env.read_size < 0
      · have : ¬ 0 ≤ env.read_size := not_le.mpr h3
        simp [h1, h2, h3, this, writes, writes_append]
      · have h3b : 0 ≤ env.read_size := not_lt.mp h3
        by_cases h4 : env.register_rc = cfg.PEVENT_ERRNO__MEM_ALLOC_FAILED
        · simp [h1, h2, h3, h4, writes, writes_append]
        · by_cases h5 : env.parse_rc = 0
          · simp only [h1, h2, h3, h4, h5, h1b, h3b]
            split_ifs <;> simp_all [writes, writes_append]
          · simp [h1, h2, h3, h4, h5, writes, writes_append]
    · simp [h1, h2, writes]

/-- C3: if the format file cannot be opened or read, if the handler
registration fails, or if `pevent_parse_event` reports a failure, then
`add_event_handler` returns a non-zero status and makes no write (to
`set_event` or elsewhere). -/
theorem add_event_handler_failure (cfg : Config) (env : AddEnv) (ras : ras_events)
    (group event : CStr) (func : Handler)
    (hfail : env.open_fd < 0 ∨ env.read_size < 0
      ∨ env.register_rc = cfg.PEVENT_ERRNO__MEM_ALLOC_FAILED ∨ env.parse_rc ≠ 0) :
    (add_event_handler cfg env ras group event func).2 ≠ 0
      ∧ writes (add_event_handler cfg env ras group event func).1 = [] := by
  constructor
  · unfold add_event_handler
    have he1 : 0 < env.open_errno.toInt := Int.natCast_pos.mpr env.open_errno.pos
    have he2 : 0 < env.malloc_errno.toInt := Int.natCast_pos.mpr env.malloc_errno.pos
    by_cases h1 : env.open_fd < 0
    · simp only [h1, if_true]; omega
    · by_cases h2 : env.malloc_ok = true
      · by_cases h3 : env.read_size < 0
        · simp only [h1, h2, h3, if_true, if_false, Bool.not_true]
          simp only [Bool.false_eq_true, if_false]; omega
        · by_cases h4 : env.register_rc = cfg.PEVENT_ERRNO__MEM_ALLOC_FAILED
          · simp [h1, h2, h3, h4, EINVAL]
          · by_cases h5 : env.parse_rc = 0
            · rcases hfail with h | h | h | h <;> contradiction
            · simp [h1, h2, h3, h4, h5, EINVAL]
      · simp only [h1, h2, if_false]
        simp only [Bool.not_eq_true] at h2
        simp only [h2, Bool.not_false, if_true]; omega
  · rw [add_event_handler_writes]
    have : ¬ (0 ≤ env.open_fd ∧ env.malloc_ok = true ∧ 0 ≤ env.read_size
        ∧ env.register_rc ≠ cfg.PEVENT_ERRNO__MEM_ALLOC_FAILED ∧ env.parse_rc = 0) := by
      rintro ⟨a, _, b, c, d⟩
      rcases hfail with h | h | h | h
      · omega
      · omega
      · exact c h
      · exact h d
    simp [this]

/-- A parse failure for `ras:mc_event`: status `EINVAL` and no write. -/
theorem add_event_handler_failure_witness :
    (add_event_handler upstreamConfig { sample_add_env with parse_rc := -1 }
        ras_events.calloc "ras".toList "mc_event".toList .ras_mc_event_handler).2 ≠ 0
      ∧ writes (add_event_handler upstreamConfig
          { sample_add_env with parse_rc := -1 }
          ras_events.calloc "ras".toList "mc_event".toList .ras_mc_event_handler).1 = [] :=
  add_event_handler_failure upstreamConfig
    { sample_add_env with parse_rc := -1 }
    ras_events.calloc "ras".toList "mc_event".toList .ras_mc_event_handler
    (by decide)

/-! ### Thread start-up -/

/-- C2, on the code: with four CPUs and `pthread_create` failing at index 2,
`handle_ras_events` cancels thread 1 only, thread 0 is left running, and the
status returned is that of `pthread_create`. -/
theorem handle_ras_events_spawn_failure_at_2 :
    (handle_ras_events upstreamConfig
        (sample_handle_env four_cpus (fun i => if i = 2 then 11 else 0)) 8 0).map
        (fun r => (thread_effects r.1, r.2))
      = some ([.pthread_create 0 0, .pthread_create 1 0, .pthread_create 2 11,
          .pthread_cancel 1], 11) := by
  decide

/-- Entered with an index that is not positive, the cancellation loop never
reaches its exit: `--i` is negative and stays non-zero. -/
theorem cancel_loop_nonpos (fuel : Nat) (i : Int) (hi : i ≤ 0) : cancel_loop fuel i = none := by
  induction fuel generalizing i with
  | zero => rfl
  | succ n ih =>
    have h1 : i - 1 ≠ 0 := by omega
    have h2 : cancel_loop n (i - 1) = none := ih (i - 1) (by omega)
    simp [cancel_loop, h1, h2]

/-- Entered with index `k + 1`, the cancellation loop cancels the threads
`k, k - 1, ..., 1` and stops: thread 0 is never cancelled. -/
theorem cancel_loop_pos (k fuel : Nat) (hfuel : k < fuel) :
    cancel_loop fuel ((k : Int) + 1)
      = some ((List.range k).reverse.map (fun j => Effect.pthread_cancel ((j : Int) + 1))) := by
  induction k generalizing fuel with
  | zero =>
    cases fuel with
    | zero => omega
    | succ n => simp [cancel_loop]
  | succ k ih =>
    cases fuel with
    | zero => omega
    | succ n =>
      have h1 : ((k + 1 : Nat) : Int) + 1 - 1 = (k : Int) + 1 := by push_cast; ring
      have h2 : (k : Int) + 1 ≠ 0 := by omega
      have h3 := ih n (by omega)
      simp only [cancel_loop, h1, h2, ne_eq, not_false_eq_true, if_true, h3]
      simp [List.range_succ]

/-- With four CPUs and `pthread_create` failing at index 0, the cancellation
loop does not finish, whatever the fuel. -/
theorem handle_ras_events_spawn_failure_at_0 (fuel : Nat) :
    handle_ras_events upstreamConfig
      (sample_handle_env four_cpus (fun i => if i = 0 then 11 else 0)) fuel 0 = none := by
  have h : cancel_loop fuel 0 = none := cancel_loop_nonpos fuel 0 (le_refl 0)
  have h4 : (get_num_cpus (sample_handle_env four_cpus
      (fun i => if i = 0 then 11 else 0)).num_cpus
      (get_tracing_dir upstreamConfig (sample_handle_env four_cpus
        (fun i => if i = 0 then 11 else 0)).tracing ras_events.calloc).2.2).2 = 4 := by
    decide
  simp [handle_ras_events, handle_ras_events_mce, handle_ras_events_threads,
    sample_handle_env, sample_add_env, sample_clock_env, upstreamConfig, spawn_loop, h,
    add_event_handler, __toggle_ras_mc_event, select_tracing_timestamp, get_tracing_dir,
    get_num_cpus, four_cpus, write_result]
  decide

/-! ### Setup failures -/

/-- C4, on the code: when the enable write for `ras:mc_event` cannot open
`set_event` (`errno` 13), `handle_ras_events` goes on, creates the four reader
threads and returns 0. -/
theorem handle_ras_events_enable_open_failure :
    (handle_ras_events upstreamConfig
        { sample_handle_env four_cpus (fun _ => 0) with
          mc := { sample_add_env with toggle := { open_fd := -1, open_errno := 13, write_rc := 0 } } }
        8 0).map (fun r => (thread_effects r.1, r.2))
      = some ([.pthread_create 0 0, .pthread_create 1 0, .pthread_create 2 0,
          .pthread_create 3 0, .pthread_join 0, .pthread_join 1, .pthread_join 2,
          .pthread_join 3], 0) := by
  decide

/-- When the enable write for `ras:mc_event` writes zero bytes,
`handle_ras_events` goes on, creates the four reader threads and returns 0. -/
theorem handle_ras_events_enable_zero_write :
    (handle_ras_events upstreamConfig
        { sample_handle_env four_cpus (fun _ => 0) with
          mc := { sample_add_env with toggle := { open_fd := 6, open_errno := 2, write_rc := 0 } } }
        8 0).map (fun r => (thread_effects r.1, r.2))
      = some ([.pthread_create 0 0, .pthread_create 1 0, .pthread_create 2 0,
          .pthread_create 3 0, .pthread_join 0, .pthread_join 1, .pthread_join 2,
          .pthread_join 3], 0) := by
  decide

/-- When `get_num_cpus` returns -1, `handle_ras_events` creates no thread and
returns 0. -/
theorem handle_ras_events_num_cpus_failure :
    (handle_ras_events upstreamConfig
        { sample_handle_env four_cpus (fun _ => 0) with num_cpus := { per_cpu_entries := none } }
        8 0).map (fun r => (thread_effects r.1, r.2))
      = some ([], 0) := by
  decide

/-- When the per-CPU contexts cannot be allocated, `handle_ras_events` creates
no thread and returns 0. -/
theorem handle_ras_events_calloc_failure :
    (handle_ras_events upstreamConfig
        { sample_handle_env four_cpus (fun _ => 0) with calloc_data_ok := false }
        8 0).map (fun r => (thread_effects r.1, r.2))
      = some ([], 0) := by
  decide

/-! ### Clock selection -/

theorem parse_ras_data_at (cpu : Int) (page : List KEvent) (k : Nat) (e : KEvent)
    (he : page.get? k = some e) :
    parse_ras_data cpu { subbuffer := page, curr := k } e.data e.ts
      = .parse_ras_data cpu (record_of e) := by
  simp only [parse_ras_data, kbuffer_curr, record_of, he, Option.map_some', Option.getD_some]

/-- With enough fuel, the decode loop started with the cursor at position `k`
dispatches the events from `k` on, in order, and leaves the cursor at the end
of the sub-buffer. -/
theorem decode_loop_spec (cpu : Int) (page : List KEvent) (fuel k : Nat)
    (hk : k ≤ page.length) (hfuel : page.length - k < fuel) :
    decode_loop cpu fuel { subbuffer := page, curr := k }
      = some (decode_trace cpu (page.drop k), { subbuffer := page, curr := page.length }) := by
  induction fuel generalizing k with
  | zero => omega
  | succ n ih =>
    by_cases hlt : k < page.length
    · have hget : page.get? k = some (page.get ⟨k, hlt⟩) := List.get?_eq_get hlt
      have hdrop : page.drop k = page.get ⟨k, hlt⟩ :: page.drop (k + 1) := by
        simp
      have hrec := ih (k + 1) (by omega) (by omega)
      have hp := parse_ras_data_at cpu page k _ hget
      simp only [decode_loop, kbuffer_read_event, hget, Option.map_some', kbuffer_next_event,
        hrec, hp, hdrop, decode_trace]
    · have hkeq : k = page.length := by omega
      subst hkeq
      have hget : page.get? page.length = none := by simp
      simp [decode_loop, kbuffer_read_event, hget, decode_trace]

theorem dispatched_decode_trace (cpu : Int) (page : List KEvent) :
    dispatched (decode_trace cpu page) = page.map record_of := by
  induction page with
  | nil => rfl
  | cons e t ih => simp [decode_trace, dispatched, ih]

/-- C8: for a sub-buffer that the kbuffer cursor presents as the events `page`
(M of them), one positive-size read makes exactly M calls of `parse_ras_data`,
one per event in position order, each followed by the advance of the cursor;
the time stamps passed are those of the sub-buffer in its order, so
non-decreasing when the sub-buffer's are. -/
theorem read_ras_event_dispatches (fd cpu : Int) (fuel : Nat) (st : ReaderState) (rc : Int)
    (page : List KEvent) (hpos : 0 < rc) (hrc : rc < 2 ^ 32) (hfuel : page.length < fuel) :
    ∃ effs st1, read_ras_event fd cpu fuel st [{ rc := rc, page := page }] = some (effs, st1, none)
      ∧ effs = .sys_read fd rc :: .kbuffer_load_subbuffer :: decode_trace cpu page
      ∧ dispatched effs = page.map record_of
      ∧ (dispatched effs).length = page.length
      ∧ (dispatched effs).map PeventRecord.ts = page.map KEvent.ts
      ∧ ((page.map KEvent.ts).Pairwise (· ≤ ·) →
          ((dispatched effs).map PeventRecord.ts).Pairwise (· ≤ ·)) := by
  have hsize : (rc % 2 ^ 32).toNat > 0 := by
    have : rc % 2 ^ 32 = rc := Int.emod_eq_of_lt (le_of_lt hpos) hrc
    rw [this]; omega
  have hdec := decode_loop_spec cpu page fuel 0 (Nat.zero_le _) (by omega)
  have hdisp : dispatched (.sys_read fd rc :: .kbuffer_load_subbuffer :: decode_trace cpu page)
      = page.map record_of := by
    simp [dispatched, dispatched_decode_trace]
  have hts : (page.map record_of).map PeventRecord.ts = page.map KEvent.ts := by
    simp [record_of, Function.comp_def]
  refine ⟨.sys_read fd rc :: .kbuffer_load_subbuffer :: decode_trace cpu page,
    { st with kbuf := { subbuffer := page, curr := page.length } }, ?_, rfl, hdisp, ?_, ?_, ?_⟩
  · simp only [read_ras_event, kbuffer_load_subbuffer, hsize, hdec, List.drop_zero,
      Nat.not_lt_zero, if_false, if_true, List.append_nil]
  · rw [hdisp]; simp
  · rw [hdisp, hts]
  · intro h
    rw [hdisp, hts]
    exact h

/-- A sub-buffer with three events at increasing offsets yields three calls in
that order. -/
theorem read_ras_event_dispatches_witness :
    ∃ effs st1, read_ras_event 7 0 4 initial_reader_state
        [{ rc := 4096, page := [sample_event 100 16, sample_event 250 48, sample_event 251 80] }]
        = some (effs, st1, none)
      ∧ (dispatched effs).map PeventRecord.ts = [100, 250, 251] := by
  obtain ⟨effs, st1, h1, _, _, _, h5, _⟩ := read_ras_event_dispatches 7 0 4 initial_reader_state
    4096 [sample_event 100 16, sample_event 250 48, sample_event 251 80]
    (by decide) (by decide) (by decide)
  exact ⟨effs, st1, h1, h5⟩

/-- C10, on the code: a `read` that returns -1 is stored in the `unsigned`
`size` as 4294967295, so `read_ras_event` loads the page buffer, decodes it,
dispatches its event and stays in its loop instead of returning -1. -/
theorem read_ras_event_error_read :
    read_ras_event 7 0 4 initial_reader_state [{ rc := -1, page := [sample_event 100 16] }]
      = some ([.sys_read 7 (-1), .kbuffer_load_subbuffer,
          .parse_ras_data 0 (record_of (sample_event 100 16)), .kbuffer_next_event],
          { warn_sleep := false, kbuf := { subbuffer := [sample_event 100 16], curr := 1 } },
          none) := by
  decide

/-- Whatever its `read` calls return, `read_ras_event` does not return: the
test `size < 0` on the `unsigned` `size` never holds. -/
theorem read_ras_event_never_returns (fd cpu : Int) (fuel : Nat) (outcomes : List ReadOutcome)
    (st : ReaderState) (res : List Effect × ReaderState × Option Int)
    (hres : read_ras_event fd cpu fuel st outcomes = some res) : res.2.2 = none := by
  induction outcomes generalizing st res with
  | nil =>
    simp only [read_ras_event, Option.some.injEq] at hres
    rw [← hres]
  | cons o os ih =>
    simp only [read_ras_event, Nat.not_lt_zero, if_false] at hres
    split_ifs at hres
    · split at hres
      · exact absurd hres (by simp)
      · split at hres
        · exact absurd hres (by simp)
        · rename_i h
          simp only [Option.some.injEq] at hres
          rw [← hres]
          have h2 := ih _ _ h
          exact h2
    · split at hres
      · exact absurd hres (by simp)
      · rename_i h
        simp only [Option.some.injEq] at hres
        rw [← hres]
        have h2 := ih _ _ h
        exact h2
    · split at hres
      · exact absurd hres (by simp)
      · rename_i h
        simp only [Option.some.injEq] at hres
        rw [← hres]
        have h2 := ih _ _ h
        exact h2

end Rasdaemon
